import Mathlib

/-!
Verification of the Payment Transaction & Subscription Dunning Engine
(`online-cyber-services` repository) against its natural-language design
document.  The relevant program parts — payment-intent creation and expiry
(`src/payments/tasks.py`), the renewal and dunning sweeps
(`src/subscriptions/tasks.py`), the nightly reconciliation job
(`src/payments/tasks.py`), the provider adapters
(`src/payments/providers/mpesa.py`, `src/payments/providers/airtel.py`) and
the persistent models (`src/payments/models.py`, `src/subscriptions/models.py`)
— are embedded shallowly below: Django rows become structures, querysets
become lists, timestamps become integer hours, `Decimal` amounts become
integers, and Python exceptions become explicit `Except` values.
-/

set_option autoImplicit false

namespace OnlineCyberServices

/-! ## Data model: payment intents (`src/payments/models.py`, `PaymentIntent`) -/

/-- `PaymentIntent.STATUS_CHOICES` in `src/payments/models.py`. -/
inductive IntentStatus where
  | created
  | requiresAction
  | processing
  | succeeded
  | failed
  | cancelled
deriving DecidableEq, Repr

/-- A `PaymentIntent` row, restricted to the fields the verified tasks read or
write: `idempotency_key` (unique, `models.py` line 137), `status`, `amount`,
`expires_at` and `error_message`.  Times are integer hours. -/
structure PaymentIntent where
  idempotencyKey : String
  status : IntentStatus
  amount : Int
  expiresAt : Int
  errorMessage : String
deriving DecidableEq, Repr

/-! ## The expiry sweep (`cleanup_expired_intents`, `src/payments/tasks.py` 174-196) -/

/-- Per-row effect of `cleanup_expired_intents`: the queryset filters
`status__in=['created', 'requires_action']` and `expires_at__lt=now`, and
`update`s matching rows to `status='cancelled'`,
`error_message='Payment intent expired'`; rows outside the filter are
untouched. -/
def sweepIntentExpiry (now : Int) (i : PaymentIntent) : PaymentIntent :=
  if (i.status = .created ∨ i.status = .requiresAction) ∧ i.expiresAt < now then
    { i with status := .cancelled, errorMessage := "Payment intent expired" }
  else
    i

/-- `cleanup_expired_intents` applied to the whole `PaymentIntent` table. -/
def cleanup_expired_intents (now : Int) (store : List PaymentIntent) : List PaymentIntent :=
  store.map (sweepIntentExpiry now)

/-! ## Intent creation (`initiate_subscription_payment`, `src/payments/tasks.py` 49-62) -/

/-- Database error raised by `PaymentIntent.objects.create` when the unique
constraint on `idempotency_key` is violated. -/
inductive DbError where
  | integrityErrorDuplicateKey
deriving DecidableEq, Repr

/-- `PaymentIntent.objects.create(...)`: because `idempotency_key` is declared
`unique=True` (`src/payments/models.py` line 137), inserting a row whose key is
already present raises `IntegrityError`; otherwise the new row is inserted.
There is no code path that looks up and returns an existing intent. -/
def paymentIntentCreate (store : List PaymentIntent) (p : PaymentIntent) :
    Except DbError (List PaymentIntent) :=
  if store.any (fun q => q.idempotencyKey == p.idempotencyKey) then
    .error .integrityErrorDuplicateKey
  else
    .ok (p :: store)

/-- The idempotency key built at `src/payments/tasks.py` line 49:
`f'sub_{subscription.id}_{attempt.attempt_number}_{uuid.uuid4().hex[:8]}'`.
The third component is a fresh random suffix drawn on every task invocation;
it is passed here as an explicit argument. -/
def mkRenewalIdempotencyKey (subscriptionId : String) (attemptNumber : Nat)
    (suffix : String) : String :=
  "sub_" ++ subscriptionId ++ "_" ++ toString attemptNumber ++ "_" ++ suffix

/-- The intent-creation step of `initiate_subscription_payment`
(`src/payments/tasks.py` lines 49-62): build a fresh key with a random suffix
and unconditionally call `PaymentIntent.objects.create` with
`status='created'` and `expires_at = now + 1 hour`. -/
def initiate_subscription_payment (store : List PaymentIntent)
    (subscriptionId : String) (attemptNumber : Nat) (suffix : String)
    (amount : Int) (now : Int) : Except DbError (List PaymentIntent) :=
  paymentIntentCreate store
    { idempotencyKey := mkRenewalIdempotencyKey subscriptionId attemptNumber suffix
      status := .created
      amount := amount
      expiresAt := now + 1
      errorMessage := "" }

/-! ## Data model: subscriptions (`src/subscriptions/models.py`) -/

/-- `Subscription.STATUS_CHOICES` in `src/subscriptions/models.py`. -/
inductive SubStatus where
  | trialing
  | active
  | pastDue
  | unpaid
  | cancelled
  | incomplete
deriving DecidableEq, Repr

/-- `SubscriptionRenewalAttempt.STATUS_CHOICES`. -/
inductive AttemptStatus where
  | pending
  | processing
  | succeeded
  | failed
deriving DecidableEq, Repr

/-- A `Subscription` row, restricted to the fields read or written by the
renewal and dunning sweeps.  `graceUntil` and `endedAt` model the nullable
`grace_until` and `ended_at` columns. -/
structure Subscription where
  status : SubStatus
  currentPeriodEnd : Int
  graceUntil : Option Int
  endedAt : Option Int
  priceAmount : Int
deriving DecidableEq, Repr

/-- A `SubscriptionRenewalAttempt` row, restricted to the fields the sweeps
use: `attempt_number`, `status`, `scheduled_at` and `created_at`. -/
structure RenewalAttempt where
  attemptNumber : Nat
  status : AttemptStatus
  scheduledAt : Int
  createdAt : Int
deriving DecidableEq, Repr

/-- `DunningSchedule` configuration (`src/subscriptions/models.py`): the
`retry_schedule` JSON list (already in list form, as returned by
`get_retry_days`), `grace_period_days`, and the two terminal-action flags. -/
structure DunningSchedule where
  retrySchedule : List Int
  gracePeriodDays : Nat
  cancelSubscription : Bool
  downgradeToFree : Bool
deriving DecidableEq, Repr

/-- `DunningSchedule.get_retry_days` for a schedule whose stored JSON is a
list (the non-list fallback `[0, 1, 3, 7]` is not needed here because the
field is modelled as a list). -/
def getRetryDays (s : DunningSchedule) : List Int :=
  s.retrySchedule

/-! ## The renewal sweep (`process_subscription_renewals`,
`src/subscriptions/tasks.py` 34-81) -/

/-- Python run-time errors that the embedded task bodies can raise. -/
inductive PyError where
  | nameError
  | attributeError
  | typeError
  | keyError
deriving DecidableEq, Repr

/-- `Decimal('0.00')` as evaluated at `src/subscriptions/tasks.py` line 55.
The module `subscriptions/tasks.py` never imports `Decimal` (its imports are
`celery.shared_task`, `django.utils.timezone`, `datetime.timedelta`, `logging`
and the function-local model imports), so evaluating the name raises
`NameError` at run time. -/
def subscriptionsTasksDecimalZero : Except PyError Int :=
  .error .nameError

/-- Outcome of processing one subscription inside the
`process_subscription_renewals` loop. -/
inductive RenewalOutcome where
  | notDue
  | skippedExisting
  | renewalFailed (e : PyError)
  | renewed
deriving DecidableEq, Repr

/-- One iteration of the `process_subscription_renewals` loop
(`src/subscriptions/tasks.py` 34-81) for a single subscription: the queryset
filter is `status='active'` and `current_period_end__lte=now`; the guard looks
for an attempt with `scheduled_at__gte=current_period_end - 1 hour` and
`status__in=['pending', 'processing']` and skips if one exists; otherwise the
body evaluates `Decimal('0.00')` while building the renewal `Order` — which
raises `NameError` (see `subscriptionsTasksDecimalZero`), caught by the
per-subscription `except` — and only then would create the `Order`, the
`LineItem` and the `RenewalAttempt` (`attempt_number = count + 1`) and enqueue
`initiate_subscription_payment`. -/
def process_subscription_renewal (now : Int) (sub : Subscription)
    (attempts : List RenewalAttempt) : RenewalOutcome × List RenewalAttempt :=
  if sub.status = .active ∧ sub.currentPeriodEnd ≤ now then
    if attempts.any (fun a =>
        (a.status == .pending || a.status == .processing)
        && sub.currentPeriodEnd - 1 ≤ a.scheduledAt) then
      (.skippedExisting, attempts)
    else
      match subscriptionsTasksDecimalZero with
      | .error e => (.renewalFailed e, attempts)
      | .ok _ =>
          (.renewed,
            { attemptNumber := attempts.length + 1
              status := .pending
              scheduledAt := now
              createdAt := now } :: attempts)
  else
    (.notDue, attempts)

/-! ## The dunning sweep (`process_dunning_schedule`,
`src/subscriptions/tasks.py` 98-176) -/

/-- `subscription.renewal_attempts.filter(status='failed').order_by('-created_at').first()`:
the failed attempt with the greatest `created_at` (the first listed one among
equal timestamps; the database order among ties is unspecified). -/
def latestFailedAttempt (attempts : List RenewalAttempt) : Option RenewalAttempt :=
  (attempts.filter (fun a => a.status == .failed)).foldl
    (fun acc a =>
      match acc with
      | none => some a
      | some b => if b.createdAt < a.createdAt then some a else acc)
    none

/-- `(now - latest_attempt.created_at).days` at `src/subscriptions/tasks.py`
line 131: Python `timedelta.days` floors, hence `Int.fdiv` over hours. -/
def daysSinceFailure (now createdAt : Int) : Int :=
  Int.fdiv (now - createdAt) 24

/-- One iteration of the `process_dunning_schedule` loop
(`src/subscriptions/tasks.py` 98-176) for a single subscription.  Returns the
updated subscription, the updated attempt store, and the number of dunning
notifications enqueued.  Only `past_due` subscriptions are processed; the
retry check compares `days_since_failure` (measured from the *latest* failed
attempt) for exact equality against each schedule offset; a matching day
creates a new `RenewalAttempt` (`attempt_number = count + 1`) and enqueues one
notification; afterwards, if `grace_until` is set and `now > grace_until`, the
terminal action sets the status to `cancelled` (with `ended_at = now`) or
`unpaid` according to the schedule flags. -/
def process_dunning_schedule (sched : DunningSchedule) (now : Int)
    (sub : Subscription) (attempts : List RenewalAttempt) :
    Subscription × List RenewalAttempt × Nat :=
  if sub.status = .pastDue then
    match latestFailedAttempt attempts with
    | none => (sub, attempts, 0)
    | some latest =>
        let days := daysSinceFailure now latest.createdAt
        let shouldRetry := (getRetryDays sched).any (fun d => d == days)
        let attempts1 :=
          if shouldRetry then
            { attemptNumber := attempts.length + 1
              status := .pending
              scheduledAt := now
              createdAt := now } :: attempts
          else attempts
        let notices := if shouldRetry then 1 else 0
        let sub1 :=
          match sub.graceUntil with
          | some g =>
              if g < now then
                if sched.cancelSubscription then
                  { sub with status := .cancelled, endedAt := some now }
                else if sched.downgradeToFree then
                  { sub with status := .unpaid }
                else sub
              else sub
          | none => sub
        (sub1, attempts1, notices)
  else
    (sub, attempts, 0)

/-- Mark every `pending`/`processing` attempt as `failed`, keeping its
`created_at`: the environment step of the scenario in which every initiated
retry fails before the next sweep (an attempt's `status` is updated in place
by `initiate_subscription_payment`'s failure path; `created_at` is
`auto_now_add` and never changes). -/
def failPendingAttempts (attempts : List RenewalAttempt) : List RenewalAttempt :=
  attempts.map (fun a =>
    if a.status == .pending || a.status == .processing then
      { a with status := .failed }
    else a)

/-- Run the dunning sweep at each time in `times` in order, letting every
retry it creates fail before the next run.  Returns the final subscription,
the final attempt store, and the total number of dunning notifications. -/
def simulateDunningAllFail (sched : DunningSchedule) (times : List Int)
    (sub : Subscription) (attempts : List RenewalAttempt) :
    Subscription × List RenewalAttempt × Nat :=
  match times with
  | [] => (sub, attempts, 0)
  | t :: ts =>
      let r := process_dunning_schedule sched t sub attempts
      let r' := simulateDunningAllFail sched ts r.1 (failPendingAttempts r.2.1)
      (r'.1, r'.2.1, r.2.2 + r'.2.2)

/-- The spec-side notion used by the dunning claims: the *first* failure, i.e.
the failed attempt with the least `created_at` (first listed among ties).
Declared for comparison with `latestFailedAttempt`, which is what the source
actually consults. -/
def firstFailedAttempt (attempts : List RenewalAttempt) : Option RenewalAttempt :=
  (attempts.filter (fun a => a.status == .failed)).foldl
    (fun acc a =>
      match acc with
      | none => some a
      | some b => if a.createdAt < b.createdAt then some a else acc)
    none

/-! ## Reconciliation (`reconcile_daily_payments`, `src/payments/tasks.py` 113-171) -/

/-- `Order.STATUS_CHOICES` in `src/commerce/models.py`. -/
inductive OrderStatus where
  | pending
  | processing
  | paid
  | failed
  | refunded
  | cancelled
deriving DecidableEq, Repr

/-- `WebhookEvent.STATUS_CHOICES` in `src/payments/models.py`. -/
inductive WebhookStatus where
  | pending
  | processing
  | processed
  | failed
  | ignored
deriving DecidableEq, Repr

/-- A `Payment` row as read by the reconciliation job: its id and the status
of its `Order`. -/
structure ReconPayment where
  pid : Nat
  orderStatus : OrderStatus
deriving DecidableEq, Repr

/-- A `WebhookEvent` row as queried by the reconciliation job: the payment it
links to (nullable) and its status. -/
structure ReconWebhookEvent where
  paymentId : Option Nat
  status : WebhookStatus
deriving DecidableEq, Repr

/-- One reported mismatch (the dicts appended to `mismatches`). -/
structure Mismatch where
  paymentId : Nat
  issue : String
deriving DecidableEq, Repr

/-- What `reconcile_daily_payments` produces: the payment and webhook stores
(returned unchanged — the job only reads them), the mismatch report, and the
number of `send_admin_alert` dispatches. -/
structure ReconReport where
  payments : List ReconPayment
  events : List ReconWebhookEvent
  mismatches : List Mismatch
  alertsSent : Nat
deriving DecidableEq, Repr

/-- `reconcile_daily_payments` (`src/payments/tasks.py` 113-171) over the
payments of the prior-day window: for each payment it appends a mismatch if
`payment.order.status != 'paid'`, and another if no `WebhookEvent` with
`payment=payment` and `status='processed'` exists; if the mismatch list is
non-empty it dispatches exactly one admin alert.  No store is written. -/
def reconcileMismatches (payments : List ReconPayment)
    (events : List ReconWebhookEvent) : List Mismatch :=
  payments.foldr
    (fun p acc =>
      (if p.orderStatus ≠ .paid then
        [{ paymentId := p.pid, issue := "Order not marked as paid" }]
      else [])
      ++ (if events.any (fun e => e.paymentId == some p.pid && e.status == .processed) then
        []
      else [{ paymentId := p.pid, issue := "No processed webhook event" }])
      ++ acc)
    []

def reconcile_daily_payments (payments : List ReconPayment)
    (events : List ReconWebhookEvent) : ReconReport :=
  { payments := payments
    events := events
    mismatches := reconcileMismatches payments events
    alertsSent := if (reconcileMismatches payments events).isEmpty then 0 else 1 }

/-! ## Provider phone normalization (`src/payments/providers/mpesa.py` 121-125,
`src/payments/providers/airtel.py` 110-114)

Python strings are modelled as `List Char`. -/

/-- The normalization in `MPesaProvider.initiate_stk_push`:
`if phone_number.startswith('0'): phone_number = '254' + phone_number[1:]`,
`elif phone_number.startswith('+'): phone_number = phone_number[1:]`.
The result is the `PartyA`/`PhoneNumber` value of the request payload. -/
def mpesaNormalizePhone : List Char → List Char
  | '0' :: rest => '2' :: '5' :: '4' :: rest
  | '+' :: rest => rest
  | phone => phone

/-- The normalization in `AirtelProvider.initiate_collect` (comment in source:
"without country code for Airtel"):
`if phone_number.startswith('254'): phone_number = '0' + phone_number[3:]`,
`elif phone_number.startswith('+254'): phone_number = '0' + phone_number[4:]`.
The result is the `msisdn` value of the request payload. -/
def airtelNormalizePhone : List Char → List Char
  | '2' :: '5' :: '4' :: rest => '0' :: rest
  | '+' :: '2' :: '5' :: '4' :: rest => '0' :: rest
  | phone => phone

/-! ## Webhook ingestion (spec-modelled) -/

/-- A stored `WebhookEvent` row as the dedup step sees it: the unique
`provider_event_id` (`src/payments/models.py` line 220) and the status. -/
structure StoredWebhookEvent where
  providerEventId : String
  status : WebhookStatus
deriving DecidableEq, Repr

/-- An inbound provider delivery, identified by its `provider_event_id`. -/
structure WebhookDelivery where
  providerEventId : String
deriving DecidableEq, Repr

/-- What one delivery led to: settlement logic ran, or the delivery was a
duplicate and was ignored. -/
inductive DeliveryOutcome where
  | settled
  | ignoredDuplicate
deriving DecidableEq, Repr

/-- Modelled from the spec: the WebhookProcessor ingestion step.  No webhook
view or processor module is present under `src/` — only the `WebhookEvent`
model with its unique `provider_event_id` column — so this follows §4.3 of the
design document: attempt an atomic insert-if-absent of `provider_event_id`
into the event store; if it already exists, mark this delivery ignored and
return success with no further state change; otherwise insert the event and
run settlement once. -/
def webhook_ingest (store : List StoredWebhookEvent) (d : WebhookDelivery) :
    List StoredWebhookEvent × DeliveryOutcome :=
  if store.any (fun e => e.providerEventId == d.providerEventId) then
    (store, .ignoredDuplicate)
  else
    ({ providerEventId := d.providerEventId, status := .processed } :: store, .settled)

/-- Ingest a sequence of deliveries in order, collecting each outcome. -/
def webhook_ingest_all (store : List StoredWebhookEvent)
    (ds : List WebhookDelivery) : List StoredWebhookEvent × List DeliveryOutcome :=
  match ds with
  | [] => (store, [])
  | d :: rest =>
      let r := webhook_ingest store d
      let r' := webhook_ingest_all r.1 rest
      (r'.1, r.2 :: r'.2)

/-- How many deliveries with event id `id` triggered settlement, given the
delivery list and the corresponding outcome list. -/
def settledCountFor (id : String) : List WebhookDelivery → List DeliveryOutcome → Nat
  | d :: ds, o :: os =>
      (if d.providerEventId == id && o == DeliveryOutcome.settled then 1 else 0)
        + settledCountFor id ds os
  | _, _ => 0

/-! ## Ledger posting (spec-modelled) -/

/-- `LedgerEntry.ENTRY_TYPE_CHOICES` in `src/payments/models.py`. -/
inductive EntryType where
  | debit
  | credit
deriving DecidableEq, Repr

/-- `LedgerEntry.ACCOUNT_CHOICES` in `src/payments/models.py`. -/
inductive AccountType where
  | revenue
  | liability
  | expense
  | asset
deriving DecidableEq, Repr

/-- A `LedgerEntry` row (`src/payments/models.py` 248-292), restricted to the
fields the balance invariant concerns; the non-negative decimal `amount` is
modelled in minor units as a `Nat`. -/
structure LedgerEntry where
  paymentId : Nat
  entryType : EntryType
  accountType : AccountType
  amount : Nat
  description : String
deriving DecidableEq, Repr

/-- Sum of the amounts of the debit entries of a list. -/
def sumDebits (es : List LedgerEntry) : Nat :=
  ((es.filter (fun e => e.entryType == .debit)).map (fun e => e.amount)).sum

/-- Sum of the amounts of the credit entries of a list. -/
def sumCredits (es : List LedgerEntry) : Nat :=
  ((es.filter (fun e => e.entryType == .credit)).map (fun e => e.amount)).sum

/-- Modelled from the spec: `LedgerRecorder.Post`.  No ledger-posting module
exists under `src/` — only the `LedgerEntry` model — so this follows §4.4 of
the design document: validate Σdebit = Σcredit before persisting; on success
the entries are appended to the ledger; entries are never updated or
deleted. -/
def ledger_post (ledger : List LedgerEntry) (entries : List LedgerEntry) :
    Except String (List LedgerEntry) :=
  if sumDebits entries == sumCredits entries then
    .ok (ledger ++ entries)
  else
    .error "unbalanced entries"

/-- Post a sequence of entry batches, stopping at the first rejection. -/
def ledger_post_all (ledger : List LedgerEntry)
    (batches : List (List LedgerEntry)) : Except String (List LedgerEntry) :=
  match batches with
  | [] => .ok ledger
  | b :: rest =>
      match ledger_post ledger b with
      | .ok l' => ledger_post_all l' rest
      | .error e => .error e

/-- The ledger entries belonging to one payment. -/
def entriesForPayment (pid : Nat) (ledger : List LedgerEntry) : List LedgerEntry :=
  ledger.filter (fun e => e.paymentId == pid)

/-! ## Callback parsing (`MPesaProvider.parse_callback`,
`src/payments/providers/mpesa.py` 342-396; `AirtelProvider.parse_callback`,
`src/payments/providers/airtel.py` 242-287)

JSON payloads are modelled by `Json`; the Python operations that can raise
inside the `try` block (`.get` on a non-dict, iteration over a non-iterable,
subscripting, `Decimal(...)`) return `Except PyError`. -/

/-- A JSON value as delivered to `parse_callback` (`payload` is arbitrary
attacker-controlled JSON). -/
inductive Json where
  | null
  | bool (b : Bool)
  | num (n : Int)
  | str (s : String)
  | arr (elems : List Json)
  | obj (fields : List (String × Json))

/-- Python `x.get(key, default)`: defined on dicts only; any other receiver
raises `AttributeError`. -/
def pyGet (j : Json) (key : String) (default : Json) : Except PyError Json :=
  match j with
  | .obj fields =>
      .ok (match fields.lookup key with
        | some v => v
        | none => default)
  | _ => .error .attributeError

/-- Python `x[key]` for a string key: defined on dicts (raising `KeyError`
when absent); any other receiver raises `TypeError`. -/
def pySubscript (j : Json) (key : String) : Except PyError Json :=
  match j with
  | .obj fields =>
      match fields.lookup key with
      | some v => .ok v
      | none => .error .keyError
  | _ => .error .typeError

/-- Python `key in x`: key membership on dicts, substring test on strings,
element equality on lists; `TypeError` otherwise. -/
def pyContains (j : Json) (key : String) : Except PyError Bool :=
  match j with
  | .obj fields => .ok (fields.any (fun f => f.1 == key))
  | .str s => .ok (2 ≤ (s.splitOn key).length)
  | .arr l => .ok (l.any (fun e =>
      match e with
      | .str t => t == key
      | _ => false))
  | _ => .error .typeError

/-- Python `for item in x`: lists yield their elements, dicts their keys,
strings their one-character substrings; `TypeError` otherwise. -/
def pyIter (j : Json) : Except PyError (List Json) :=
  match j with
  | .arr l => .ok l
  | .obj fields => .ok (fields.map (fun f => Json.str f.1))
  | .str s => .ok (s.toList.map (fun c => Json.str (String.mk [c])))
  | _ => .error .typeError

/-- Python `x == 0` for a JSON value: numeric zero, and `False` (a `bool` is
an `int` in Python, so `False == 0` holds). -/
def pyEqZero : Json → Bool
  | .num n => n == 0
  | .bool b => !b
  | _ => false

/-- Python `x == s` for a string literal `s`. -/
def pyEqStr (j : Json) (s : String) : Bool :=
  match j with
  | .str t => t == s
  | _ => false

/-- Python truthiness of a JSON value (`if subscriber:`). -/
def pyTruthy : Json → Bool
  | .null => false
  | .bool b => b
  | .num n => n != 0
  | .str s => !s.isEmpty
  | .arr l => !l.isEmpty
  | .obj fields => !fields.isEmpty

/-- Python `str(x)` of a JSON value, to the extent `Decimal(str(x))` cares:
the exact rendering of lists and dicts is irrelevant because it is not a plain
numeral either way. -/
def pyStr : Json → String
  | .null => "None"
  | .bool true => "True"
  | .bool false => "False"
  | .num n => toString n
  | .str s => s
  | .arr _ => "[python list]"
  | .obj _ => "[python dict]"

/-- Python `Decimal(s)`: accepts a plain digit numeral, raises otherwise.
(The real `Decimal` grammar also admits signs, points and exponents; the
claims settled here are insensitive to the exact grammar — only to the
success/failure split being caught by the enclosing handler.) -/
def pyDecimal (s : String) : Except PyError Int :=
  if s.length > 0 && s.toList.all Char.isDigit then
    .ok (s.toList.foldl (fun n c => n * 10 + (Int.ofNat c.toNat - 48)) 0)
  else
    .error .typeError

/-- The message text attached to a caught Python error (`str(e)`); the claims
only need it to be non-empty. -/
def pyErrMsg : PyError → String
  | .nameError => "NameError"
  | .attributeError => "AttributeError"
  | .typeError => "TypeError"
  | .keyError => "KeyError"

/-- A Python dict, modelled as an association list in which the *first*
binding of a key is its current value; `dictSet` prepends, which matches dict
assignment for every lookup. -/
def dictSet (d : List (String × Json)) (k : String) (v : Json) :
    List (String × Json) :=
  (k, v) :: d

/-- Lookup in the dict model (first binding wins). -/
def dictFind (d : List (String × Json)) (k : String) : Option Json :=
  (d.find? (fun kv => kv.1 == k)).map (fun kv => kv.2)

/-- One iteration of the `for item in items` loop of
`MPesaProvider.parse_callback`: read `item.get('Name')` / `item.get('Value')`
and copy the recognized metadata fields into `parsed`; `Amount` goes through
`Decimal(str(value))`. -/
def mpesaItemStep (parsed : List (String × Json)) (item : Json) :
    Except PyError (List (String × Json)) := do
  let name ← pyGet item "Name" .null
  let value ← pyGet item "Value" .null
  if pyEqStr name "Amount" then
    let amount ← pyDecimal (pyStr value)
    pure (dictSet parsed "amount" (.num amount))
  else if pyEqStr name "MpesaReceiptNumber" then
    pure (dictSet parsed "receipt_number" value)
  else if pyEqStr name "TransactionDate" then
    pure (dictSet parsed "transaction_date" value)
  else if pyEqStr name "PhoneNumber" then
    pure (dictSet parsed "phone_number" value)
  else
    pure parsed

/-- The body of the `try` block of `MPesaProvider.parse_callback`
(`src/payments/providers/mpesa.py` 353-389): drill into
`Body.stkCallback`, build `parsed` with `success = (result_code == 0)`, and on
success walk `CallbackMetadata.Item` copying the recognized metadata fields
into `parsed` via `mpesaItemStep`. -/
def mpesa_parse_callback_body (callbackData : Json) :
    Except PyError (List (String × Json)) := do
  let body ← pyGet callbackData "Body" (.obj [])
  let stkCallback ← pyGet body "stkCallback" (.obj [])
  let resultCode ← pyGet stkCallback "ResultCode" .null
  let resultDesc ← pyGet stkCallback "ResultDesc" .null
  let merchantRequestId ← pyGet stkCallback "MerchantRequestID" .null
  let checkoutRequestId ← pyGet stkCallback "CheckoutRequestID" .null
  let parsed : List (String × Json) :=
    [("result_code", resultCode),
     ("result_desc", resultDesc),
     ("merchant_request_id", merchantRequestId),
     ("checkout_request_id", checkoutRequestId),
     ("success", .bool (pyEqZero resultCode))]
  if pyEqZero resultCode then
    let callbackMetadata ← pyGet stkCallback "CallbackMetadata" (.obj [])
    let itemsJson ← pyGet callbackMetadata "Item" (.arr [])
    let items ← pyIter itemsJson
    items.foldlM mpesaItemStep parsed
  else
    pure parsed

/-- `MPesaProvider.parse_callback`: the whole body runs under
`try/except Exception`, whose handler returns
`{'success': False, 'error': str(e)}`. -/
def mpesa_parse_callback (callbackData : Json) : List (String × Json) :=
  match mpesa_parse_callback_body callbackData with
  | .ok parsed => parsed
  | .error e => [("success", .bool false), ("error", .str (pyErrMsg e))]

/-- The `if 'amount' in transaction:` block of `AirtelProvider.parse_callback`:
copy `transaction['amount']` into `parsed` through `Decimal(str(...))`. -/
def airtelAmountStep (transaction : Json) (parsed : List (String × Json)) :
    Except PyError (List (String × Json)) := do
  let hasAmount ← pyContains transaction "amount"
  if hasAmount then
    let amountJson ← pySubscript transaction "amount"
    let amount ← pyDecimal (pyStr amountJson)
    pure (dictSet parsed "amount" (.num amount))
  else
    pure parsed

/-- The `if 'currency' in transaction:` block of
`AirtelProvider.parse_callback`. -/
def airtelCurrencyStep (transaction : Json) (parsed : List (String × Json)) :
    Except PyError (List (String × Json)) := do
  let hasCurrency ← pyContains transaction "currency"
  if hasCurrency then
    let currency ← pySubscript transaction "currency"
    pure (dictSet parsed "currency" currency)
  else
    pure parsed

/-- The `if subscriber:` block of `AirtelProvider.parse_callback`: copy
`msisdn` and `country` into `parsed` when the subscriber dict is truthy. -/
def airtelSubscriberStep (subscriber : Json) (parsed : List (String × Json)) :
    Except PyError (List (String × Json)) :=
  if pyTruthy subscriber then do
    let phone ← pyGet subscriber "msisdn" .null
    let country ← pyGet subscriber "country" .null
    pure (dictSet (dictSet parsed "phone_number" phone) "country" country)
  else
    pure parsed

/-- The body of the `try` block of `AirtelProvider.parse_callback`
(`src/payments/providers/airtel.py` 253-280): read the `status`, `id` and
`airtel_money_id` of `transaction`, build `parsed` with
`success = status in ['TS', 'SUCCESS']`, copy `amount` (through
`Decimal(str(...))`) and `currency` when present, and copy subscriber details
when `subscriber` is truthy. -/
def airtel_parse_callback_body (callbackData : Json) :
    Except PyError (List (String × Json)) := do
  let transaction ← pyGet callbackData "transaction" (.obj [])
  let status ← pyGet transaction "status" .null
  let transactionId ← pyGet transaction "id" .null
  let airtelMoneyId ← pyGet transaction "airtel_money_id" .null
  let parsed : List (String × Json) :=
    [("status", status),
     ("transaction_id", transactionId),
     ("airtel_money_id", airtelMoneyId),
     ("success", .bool (pyEqStr status "TS" || pyEqStr status "SUCCESS"))]
  let parsed1 ← airtelAmountStep transaction parsed
  let parsed2 ← airtelCurrencyStep transaction parsed1
  let subscriber ← pyGet callbackData "subscriber" (.obj [])
  airtelSubscriberStep subscriber parsed2

/-- `AirtelProvider.parse_callback`: the whole body runs under
`try/except Exception`, whose handler returns
`{'success': False, 'error': str(e)}`. -/
def airtel_parse_callback (callbackData : Json) : List (String × Json) :=
  match airtel_parse_callback_body callbackData with
  | .ok parsed => parsed
  | .error e => [("success", .bool false), ("error", .str (pyErrMsg e))]

/-! ## Theorems -/

/-- One pass of the expiry transform is idempotent at a fixed time: an intent
it cancels is outside the filter afterwards, and an intent it skips is
unchanged. -/
theorem sweepIntentExpiry_idem (t : Int) (p : PaymentIntent) :
    sweepIntentExpiry t (sweepIntentExpiry t p) = sweepIntentExpiry t p := by
  by_cases hc : (p.status = .created ∨ p.status = .requiresAction) ∧ p.expiresAt < t
  · have h1 : sweepIntentExpiry t p
        = { p with status := .cancelled, errorMessage := "Payment intent expired" } := by
      unfold sweepIntentExpiry
      rw [if_pos hc]
    rw [h1]
    unfold sweepIntentExpiry
    rw [if_neg]
    rintro ⟨h2, -⟩
    rcases h2 with h2 | h2 <;> exact absurd h2 (by simp)
  · have h1 : sweepIntentExpiry t p = p := by
      unfold sweepIntentExpiry
      rw [if_neg hc]
    rw [h1]
    exact h1

/-- C6: every `PaymentIntent` past `expires_at` still in `created` or
`requires_action` is cancelled by the expiry sweep; intents in any other
status are never modified; an intent the sweep changed is a fixed point of
every later sweep (so the transition happens exactly once across arbitrarily
many runs); and re-running the sweep at the same instant changes nothing. -/
theorem cleanup_expired_intents_exactly_once (now now2 : Int)
    (store : List PaymentIntent) (i : PaymentIntent) :
    ((i.status = .created ∨ i.status = .requiresAction) → i.expiresAt < now →
      (sweepIntentExpiry now i).status = .cancelled)
    ∧ (i.status ≠ .created → i.status ≠ .requiresAction → sweepIntentExpiry now i = i)
    ∧ (sweepIntentExpiry now i ≠ i →
        sweepIntentExpiry now2 (sweepIntentExpiry now i) = sweepIntentExpiry now i)
    ∧ cleanup_expired_intents now (cleanup_expired_intents now store)
        = cleanup_expired_intents now store := by
  refine ⟨?_, ?_, ?_, ?_⟩
  · intro hs hlt
    unfold sweepIntentExpiry
    rw [if_pos ⟨hs, hlt⟩]
  · intro h1 h2
    unfold sweepIntentExpiry
    rw [if_neg]
    rintro ⟨hor, -⟩
    rcases hor with h | h <;> contradiction
  · intro hne
    by_cases hc : (i.status = .created ∨ i.status = .requiresAction) ∧ i.expiresAt < now
    · have h1 : sweepIntentExpiry now i
          = { i with status := .cancelled, errorMessage := "Payment intent expired" } := by
        unfold sweepIntentExpiry
        rw [if_pos hc]
      rw [h1]
      unfold sweepIntentExpiry
      rw [if_neg]
      rintro ⟨h2, -⟩
      rcases h2 with h2 | h2 <;> exact absurd h2 (by simp)
    · exact absurd (by unfold sweepIntentExpiry; rw [if_neg hc]) hne
  · unfold cleanup_expired_intents
    rw [List.map_map]
    exact List.map_congr_left (fun a _ => sweepIntentExpiry_idem now a)

/-- Witness for C6: a concrete expired `created` intent is cancelled. -/
theorem cleanup_expired_intents_exactly_once_witness :
    (sweepIntentExpiry 5
      { idempotencyKey := "k", status := IntentStatus.created, amount := 100,
        expiresAt := 0, errorMessage := "" }).status = IntentStatus.cancelled :=
  (cleanup_expired_intents_exactly_once 5 7 []
      { idempotencyKey := "k", status := IntentStatus.created, amount := 100,
        expiresAt := 0, errorMessage := "" }).1
    (Or.inl rfl) (by decide)

/-- C1 counterexample: replaying intent creation with an already-used
idempotency key does not return the original intent — it raises
`IntegrityError` — and a scheduler retry of the same logical renewal attempt
(subscription 42, attempt 1) with a fresh random suffix creates a second
intent for that attempt. -/
theorem initiate_subscription_payment_replay_counterexample :
    initiate_subscription_payment
      [{ idempotencyKey := "sub_42_1_aaaaaaaa", status := IntentStatus.requiresAction,
         amount := 500, expiresAt := 10, errorMessage := "" }]
      "42" 1 "aaaaaaaa" 500 5
      = Except.error DbError.integrityErrorDuplicateKey
    ∧ initiate_subscription_payment
      [{ idempotencyKey := "sub_42_1_aaaaaaaa", status := IntentStatus.requiresAction,
         amount := 500, expiresAt := 10, errorMessage := "" }]
      "42" 1 "bbbbbbbb" 500 5
      = Except.ok
        [{ idempotencyKey := "sub_42_1_bbbbbbbb", status := IntentStatus.created,
           amount := 500, expiresAt := 5 + 1, errorMessage := "" },
         { idempotencyKey := "sub_42_1_aaaaaaaa", status := IntentStatus.requiresAction,
           amount := 500, expiresAt := 10, errorMessage := "" }] :=
  ⟨rfl, rfl⟩

/-- C1 (amended): creating with an already-used idempotency key is rejected by
the unique-key constraint (raising `IntegrityError`, not returning the
original); creating with a fresh key only prepends the new intent, leaving
every existing intent unchanged; and creation preserves key uniqueness, so at
most one intent ever exists per idempotency key. -/
theorem paymentIntentCreate_unique_key (store : List PaymentIntent) (p : PaymentIntent) :
    (store.any (fun q => q.idempotencyKey == p.idempotencyKey) = true →
      paymentIntentCreate store p = .error .integrityErrorDuplicateKey)
    ∧ (store.any (fun q => q.idempotencyKey == p.idempotencyKey) = false →
      paymentIntentCreate store p = .ok (p :: store))
    ∧ (∀ store', paymentIntentCreate store p = .ok store' →
      (store.map (fun q => q.idempotencyKey)).Nodup →
      (store'.map (fun q => q.idempotencyKey)).Nodup) := by
  refine ⟨?_, ?_, ?_⟩
  · intro h
    unfold paymentIntentCreate
    rw [if_pos h]
  · intro h
    unfold paymentIntentCreate
    rw [if_neg (by simp [h])]
  · intro store' hok hnodup
    unfold paymentIntentCreate at hok
    by_cases h : store.any (fun q => q.idempotencyKey == p.idempotencyKey) = true
    · rw [if_pos h] at hok
      exact absurd hok (by simp)
    · rw [if_neg h] at hok
      have hstore : store' = p :: store := by
        injection hok with h2
        exact h2.symm
      subst hstore
      simp only [List.map_cons, List.nodup_cons]
      refine ⟨?_, hnodup⟩
      intro hmem
      rcases List.mem_map.mp hmem with ⟨q, hq, hkey⟩
      apply h
      rw [List.any_eq_true]
      exact ⟨q, hq, by rw [hkey]; exact beq_self_eq_true _⟩

/-- Witness for C1's amended theorem: a concrete duplicate key is rejected. -/
theorem paymentIntentCreate_unique_key_witness :
    paymentIntentCreate
      [{ idempotencyKey := "sub_42_1_aaaaaaaa", status := IntentStatus.requiresAction,
         amount := 500, expiresAt := 10, errorMessage := "" }]
      { idempotencyKey := "sub_42_1_aaaaaaaa", status := IntentStatus.created,
        amount := 500, expiresAt := 6, errorMessage := "" }
      = Except.error DbError.integrityErrorDuplicateKey :=
  (paymentIntentCreate_unique_key
      [{ idempotencyKey := "sub_42_1_aaaaaaaa", status := IntentStatus.requiresAction,
         amount := 500, expiresAt := 10, errorMessage := "" }]
      { idempotencyKey := "sub_42_1_aaaaaaaa", status := IntentStatus.created,
        amount := 500, expiresAt := 6, errorMessage := "" }).1
    (by decide)

/-- C5: because `subscriptions/tasks.py` uses `Decimal` without importing it,
the renewal sweep's order-creation path raises `NameError` for every due
`active` subscription with no in-flight attempt — creating neither an `Order`
nor a `RenewalAttempt` — while the in-flight guard path still skips without
creating anything. -/
theorem process_subscription_renewal_missing_decimal_import :
    process_subscription_renewal 100
      { status := SubStatus.active, currentPeriodEnd := 90, graceUntil := none,
        endedAt := none, priceAmount := 500 }
      [] = (RenewalOutcome.renewalFailed PyError.nameError, [])
    ∧ process_subscription_renewal 100
      { status := SubStatus.active, currentPeriodEnd := 90, graceUntil := none,
        endedAt := none, priceAmount := 500 }
      [{ attemptNumber := 1, status := AttemptStatus.pending, scheduledAt := 95,
         createdAt := 89 }]
      = (RenewalOutcome.skippedExisting,
        [{ attemptNumber := 1, status := AttemptStatus.pending, scheduledAt := 95,
           createdAt := 89 }]) := by
  constructor <;> decide

/-- C3: with schedule `[0, 1, 3, 7]` and a 7-day grace period, a subscription
whose renewal failed at hour 0 and whose every retry fails immediately gets a
retry from *both* day-0 sweep runs (hours 0 and 6): `days_since_failure` is
measured from the latest failure and compared for exact equality against each
offset with no in-flight-attempt guard, so a single day can produce several
retries — already more than the claimed at-most-one retry on day 0 and on
track to exceed the claimed 4 total. -/
theorem process_dunning_schedule_same_day_double_retry :
    (simulateDunningAllFail
      { retrySchedule := [0, 1, 3, 7], gracePeriodDays := 7,
        cancelSubscription := false, downgradeToFree := true }
      [0, 6]
      { status := SubStatus.pastDue, currentPeriodEnd := 0, graceUntil := some 168,
        endedAt := none, priceAmount := 500 }
      [{ attemptNumber := 1, status := AttemptStatus.failed, scheduledAt := 0,
         createdAt := 0 }]).2.1.length = 3
    ∧ (simulateDunningAllFail
      { retrySchedule := [0, 1, 3, 7], gracePeriodDays := 7,
        cancelSubscription := false, downgradeToFree := true }
      [0, 6]
      { status := SubStatus.pastDue, currentPeriodEnd := 0, graceUntil := some 168,
        endedAt := none, priceAmount := 500 }
      [{ attemptNumber := 1, status := AttemptStatus.failed, scheduledAt := 0,
         createdAt := 0 }]).2.2 = 2 := by
  constructor <;> decide

/-- C4 counterexample: first failure at hour 0 and a later failure at hour 24;
at hour 96 the whole days elapsed since the *first* failure is 4, which is not
a retry offset of `[0, 1, 3, 7]`, yet the sweep creates a new attempt and a
dunning notification because it measures from the most recent failed attempt
(3 days). -/
theorem process_dunning_schedule_first_failure_counterexample :
    firstFailedAttempt
      [{ attemptNumber := 2, status := AttemptStatus.failed, scheduledAt := 24,
         createdAt := 24 },
       { attemptNumber := 1, status := AttemptStatus.failed, scheduledAt := 0,
         createdAt := 0 }]
      = some { attemptNumber := 1, status := AttemptStatus.failed, scheduledAt := 0,
               createdAt := 0 }
    ∧ daysSinceFailure 96 0 = 4
    ∧ (([0, 1, 3, 7] : List Int).any (fun d => d == (4 : Int))) = false
    ∧ (process_dunning_schedule
      { retrySchedule := [0, 1, 3, 7], gracePeriodDays := 7,
        cancelSubscription := false, downgradeToFree := true }
      96
      { status := SubStatus.pastDue, currentPeriodEnd := 0, graceUntil := none,
        endedAt := none, priceAmount := 500 }
      [{ attemptNumber := 2, status := AttemptStatus.failed, scheduledAt := 24,
         createdAt := 24 },
       { attemptNumber := 1, status := AttemptStatus.failed, scheduledAt := 0,
         createdAt := 0 }]).2.1.length = 3
    ∧ (process_dunning_schedule
      { retrySchedule := [0, 1, 3, 7], gracePeriodDays := 7,
        cancelSubscription := false, downgradeToFree := true }
      96
      { status := SubStatus.pastDue, currentPeriodEnd := 0, graceUntil := none,
        endedAt := none, priceAmount := 500 }
      [{ attemptNumber := 2, status := AttemptStatus.failed, scheduledAt := 24,
         createdAt := 24 },
       { attemptNumber := 1, status := AttemptStatus.failed, scheduledAt := 0,
         createdAt := 0 }]).2.2 = 1 := by
  refine ⟨by decide, by decide, by decide, by decide, by decide⟩

/-- C4 (amended): on each sweep run, for every `past_due` subscription with at
least one failed attempt, a new `RenewalAttempt` and one dunning notification
are created if and only if the whole-day count of days elapsed since the
*most recent* failed attempt (not the first failure) exactly equals one of the
schedule's retry offsets. -/
theorem process_dunning_schedule_retry_iff_latest (sched : DunningSchedule)
    (now : Int) (sub : Subscription) (attempts : List RenewalAttempt)
    (latest : RenewalAttempt) :
    sub.status = .pastDue →
    latestFailedAttempt attempts = some latest →
    (((getRetryDays sched).any
        (fun d => d == daysSinceFailure now latest.createdAt) = true →
      (process_dunning_schedule sched now sub attempts).2.1.length
          = attempts.length + 1
      ∧ (process_dunning_schedule sched now sub attempts).2.2 = 1)
    ∧ ((getRetryDays sched).any
        (fun d => d == daysSinceFailure now latest.createdAt) = false →
      (process_dunning_schedule sched now sub attempts).2.1 = attempts
      ∧ (process_dunning_schedule sched now sub attempts).2.2 = 0)) := by
  intro hstatus hlatest
  unfold process_dunning_schedule
  rw [if_pos hstatus, hlatest]
  constructor <;> intro hr <;> simp [hr]

/-- Witness for C4's amended theorem: the concrete hour-96 scenario, where the
3-day distance from the latest failure matches offset 3 and one retry plus one
notification are created. -/
theorem process_dunning_schedule_retry_iff_latest_witness :
    (process_dunning_schedule
      { retrySchedule := [0, 1, 3, 7], gracePeriodDays := 7,
        cancelSubscription := false, downgradeToFree := true }
      96
      { status := SubStatus.pastDue, currentPeriodEnd := 0, graceUntil := none,
        endedAt := none, priceAmount := 500 }
      [{ attemptNumber := 2, status := AttemptStatus.failed, scheduledAt := 24,
         createdAt := 24 },
       { attemptNumber := 1, status := AttemptStatus.failed, scheduledAt := 0,
         createdAt := 0 }]).2.1.length = 3 :=
  ((process_dunning_schedule_retry_iff_latest
      { retrySchedule := [0, 1, 3, 7], gracePeriodDays := 7,
        cancelSubscription := false, downgradeToFree := true }
      96
      { status := SubStatus.pastDue, currentPeriodEnd := 0, graceUntil := none,
        endedAt := none, priceAmount := 500 }
      [{ attemptNumber := 2, status := AttemptStatus.failed, scheduledAt := 24,
         createdAt := 24 },
       { attemptNumber := 1, status := AttemptStatus.failed, scheduledAt := 0,
         createdAt := 0 }]
      { attemptNumber := 2, status := AttemptStatus.failed, scheduledAt := 24,
        createdAt := 24 }
      rfl (by decide)).1 (by decide)).1

/-- C8 counterexample: a window containing exactly one `Payment` whose `Order`
is still `pending` and which has no processed webhook event produces *two*
mismatches (one per failed check), not exactly one; one alert is still sent. -/
theorem reconcile_daily_payments_two_mismatches_counterexample :
    (reconcile_daily_payments [{ pid := 1, orderStatus := OrderStatus.pending }]
      []).mismatches.length = 2
    ∧ (reconcile_daily_payments [{ pid := 1, orderStatus := OrderStatus.pending }]
      []).alertsSent = 1 := by
  constructor <;> decide

/-- C8 (amended): when the window contains exactly one `Payment` whose `Order`
is `pending` *and that Payment has a processed webhook event*, the job reports
exactly one mismatch, dispatches exactly one admin alert and mutates no stored
record; and whenever no mismatch is found, no alert is sent. -/
theorem reconcile_daily_payments_single_mismatch (p : ReconPayment)
    (events : List ReconWebhookEvent) (payments : List ReconPayment) :
    (p.orderStatus = .pending →
      events.any (fun e => e.paymentId == some p.pid && e.status == .processed) = true →
      (reconcile_daily_payments [p] events).mismatches.length = 1
      ∧ (reconcile_daily_payments [p] events).alertsSent = 1
      ∧ (reconcile_daily_payments [p] events).payments = [p]
      ∧ (reconcile_daily_payments [p] events).events = events)
    ∧ ((reconcile_daily_payments payments events).mismatches = [] →
      (reconcile_daily_payments payments events).alertsSent = 0) := by
  constructor
  · intro hp hw
    have hm : reconcileMismatches [p] events
        = [{ paymentId := p.pid, issue := "Order not marked as paid" }] := by
      unfold reconcileMismatches
      simp only [List.foldr_cons, List.foldr_nil]
      rw [hp, hw]
      simp
    refine ⟨?_, ?_, rfl, rfl⟩
    · show (reconcileMismatches [p] events).length = 1
      rw [hm]
      rfl
    · show (if (reconcileMismatches [p] events).isEmpty then 0 else 1) = 1
      rw [hm]
      rfl
  · intro hempty
    have hempty' : reconcileMismatches payments events = [] := hempty
    show (if (reconcileMismatches payments events).isEmpty then 0 else 1) = 0
    rw [hempty']
    rfl

/-- Witness for C8's amended theorem: one pending-order payment with a
processed webhook event yields exactly one mismatch. -/
theorem reconcile_daily_payments_single_mismatch_witness :
    (reconcile_daily_payments [{ pid := 1, orderStatus := OrderStatus.pending }]
      [{ paymentId := some 1, status := WebhookStatus.processed }]).mismatches.length = 1 :=
  ((reconcile_daily_payments_single_mismatch
      { pid := 1, orderStatus := OrderStatus.pending }
      [{ paymentId := some 1, status := WebhookStatus.processed }]
      []).1 rfl (by decide)).1

/-- C9 counterexample: for the payer number `254712345678`, the M-Pesa adapter
sends `254712345678` (international format) while the Airtel adapter sends
`0712345678` (local format): the two outbound payloads do not share one
canonical international format. -/
theorem provider_phone_format_counterexample :
    mpesaNormalizePhone ("254712345678".toList) = "254712345678".toList
    ∧ airtelNormalizePhone ("254712345678".toList) = "0712345678".toList
    ∧ mpesaNormalizePhone ("254712345678".toList)
        ≠ airtelNormalizePhone ("254712345678".toList) := by
  refine ⟨by decide, by decide, by decide⟩

/-- C9 (amended): each adapter normalizes to its own canonical format — the
M-Pesa adapter maps `0…`, `+254…` and `254…` spellings to the 254-prefixed
international form, while the Airtel adapter maps the same spellings to the
0-prefixed local form — so the two payload formats differ. -/
theorem provider_phone_formats (rest : List Char) :
    mpesaNormalizePhone ('0' :: rest) = '2' :: '5' :: '4' :: rest
    ∧ mpesaNormalizePhone ('+' :: '2' :: '5' :: '4' :: rest) = '2' :: '5' :: '4' :: rest
    ∧ mpesaNormalizePhone ('2' :: '5' :: '4' :: rest) = '2' :: '5' :: '4' :: rest
    ∧ airtelNormalizePhone ('2' :: '5' :: '4' :: rest) = '0' :: rest
    ∧ airtelNormalizePhone ('+' :: '2' :: '5' :: '4' :: rest) = '0' :: rest
    ∧ airtelNormalizePhone ('0' :: rest) = '0' :: rest :=
  ⟨rfl, rfl, rfl, rfl, rfl, rfl⟩

/-- Unfolding equation: ingesting a delivery list distributes as one ingest
plus the rest over the updated store. -/
theorem webhook_ingest_all_cons (store : List StoredWebhookEvent)
    (d : WebhookDelivery) (rest : List WebhookDelivery) :
    webhook_ingest_all store (d :: rest)
      = ((webhook_ingest_all (webhook_ingest store d).1 rest).1,
         (webhook_ingest store d).2
           :: (webhook_ingest_all (webhook_ingest store d).1 rest).2) := rfl

/-- Unfolding equation for the settlement counter. -/
theorem settledCountFor_cons (id : String) (d : WebhookDelivery)
    (ds : List WebhookDelivery) (o : DeliveryOutcome) (os : List DeliveryOutcome) :
    settledCountFor id (d :: ds) (o :: os)
      = (if d.providerEventId == id && o == DeliveryOutcome.settled then 1 else 0)
        + settledCountFor id ds os := rfl

/-- A duplicate delivery is ignored and the store is untouched. -/
theorem webhook_ingest_dup (store : List StoredWebhookEvent) (d : WebhookDelivery)
    (h : store.any (fun e => e.providerEventId == d.providerEventId) = true) :
    webhook_ingest store d = (store, .ignoredDuplicate) := by
  unfold webhook_ingest
  rw [if_pos h]

/-- A first delivery is inserted and settles. -/
theorem webhook_ingest_fresh (store : List StoredWebhookEvent) (d : WebhookDelivery)
    (h : store.any (fun e => e.providerEventId == d.providerEventId) = false) :
    webhook_ingest store d
      = ({ providerEventId := d.providerEventId, status := .processed } :: store,
         .settled) := by
  unfold webhook_ingest
  rw [if_neg (by simp [h])]

/-- Ingestion never removes an event id from the store. -/
theorem webhook_ingest_member_preserved (store : List StoredWebhookEvent)
    (d : WebhookDelivery) (id : String)
    (h : store.any (fun e => e.providerEventId == id) = true) :
    ((webhook_ingest store d).1).any (fun e => e.providerEventId == id) = true := by
  by_cases hc : store.any (fun e => e.providerEventId == d.providerEventId) = true
  · rw [webhook_ingest_dup store d hc]
    exact h
  · rw [webhook_ingest_fresh store d (by simpa using hc)]
    simp [List.any_cons, h]

/-- Once the store holds an event id, no later delivery of that id ever
settles again. -/
theorem settledCountFor_eq_zero (id : String) (ds : List WebhookDelivery) :
    ∀ store, store.any (fun e => e.providerEventId == id) = true →
      settledCountFor id ds (webhook_ingest_all store ds).2 = 0 := by
  induction ds with
  | nil => intro store _; rfl
  | cons d rest ih =>
      intro store h
      rw [webhook_ingest_all_cons, settledCountFor_cons]
      by_cases hc : store.any (fun e => e.providerEventId == d.providerEventId) = true
      · rw [webhook_ingest_dup store d hc]
        have hf : (DeliveryOutcome.ignoredDuplicate == DeliveryOutcome.settled) = false := rfl
        simp [hf, ih store h]
      · rw [webhook_ingest_fresh store d (by simpa using hc)]
        have hd : (d.providerEventId == id) = false := by
          by_contra hne
          have hid : d.providerEventId = id := by
            have := eq_true_of_ne_false hne
            exact eq_of_beq this
          rw [hid] at hc
          exact hc h
        have hmem : (((⟨d.providerEventId, WebhookStatus.processed⟩ : StoredWebhookEvent)
            :: store).any (fun e => e.providerEventId == id)) = true := by
          simp [List.any_cons, h]
        simp [hd, ih _ hmem]

/-- Over any delivery sequence, settlement for a fixed event id runs at most
once. -/
theorem settledCountFor_le_one (id : String) (ds : List WebhookDelivery) :
    ∀ store, settledCountFor id ds (webhook_ingest_all store ds).2 ≤ 1 := by
  induction ds with
  | nil => intro store; exact Nat.zero_le 1
  | cons d rest ih =>
      intro store
      rw [webhook_ingest_all_cons, settledCountFor_cons]
      by_cases hc : store.any (fun e => e.providerEventId == d.providerEventId) = true
      · rw [webhook_ingest_dup store d hc]
        have hf : (DeliveryOutcome.ignoredDuplicate == DeliveryOutcome.settled) = false := rfl
        simpa [hf] using ih store
      · rw [webhook_ingest_fresh store d (by simpa using hc)]
        by_cases hd : (d.providerEventId == id) = true
        · have hmem : (((⟨d.providerEventId, WebhookStatus.processed⟩ : StoredWebhookEvent)
              :: store).any (fun e => e.providerEventId == id)) = true := by
            simp [List.any_cons, hd]
          have hzero := settledCountFor_eq_zero id rest _ hmem
          simp [hd, hzero]
        · have hd' : (d.providerEventId == id) = false := eq_false_of_ne_true hd
          simpa [hd'] using ih _

/-- C2: webhook ingestion is idempotent on `provider_event_id` — a delivery
whose event id is already stored is marked ignored with no state change, a
first delivery is inserted and settles, and across any sequence of deliveries
settlement logic runs at most once per event id. -/
theorem webhook_ingest_at_most_once (store : List StoredWebhookEvent)
    (ds : List WebhookDelivery) (d : WebhookDelivery) (id : String) :
    (store.any (fun e => e.providerEventId == d.providerEventId) = true →
      webhook_ingest store d = (store, .ignoredDuplicate))
    ∧ (store.any (fun e => e.providerEventId == d.providerEventId) = false →
      webhook_ingest store d
        = ({ providerEventId := d.providerEventId, status := .processed } :: store,
           .settled))
    ∧ settledCountFor id ds (webhook_ingest_all store ds).2 ≤ 1 :=
  ⟨webhook_ingest_dup store d, webhook_ingest_fresh store d,
   settledCountFor_le_one id ds store⟩

/-- Witness for C2: a concrete duplicate delivery of `evt_1` is ignored and
leaves the store unchanged. -/
theorem webhook_ingest_at_most_once_witness :
    webhook_ingest
      [{ providerEventId := "evt_1", status := WebhookStatus.processed }]
      { providerEventId := "evt_1" }
      = ([{ providerEventId := "evt_1", status := WebhookStatus.processed }],
         DeliveryOutcome.ignoredDuplicate) :=
  (webhook_ingest_at_most_once
      [{ providerEventId := "evt_1", status := WebhookStatus.processed }]
      [] { providerEventId := "evt_1" } "evt_1").1 (by decide)

/-- Debit sums distribute over ledger append. -/
theorem sumDebits_append (l1 l2 : List LedgerEntry) :
    sumDebits (l1 ++ l2) = sumDebits l1 + sumDebits l2 := by
  simp [sumDebits, List.filter_append]

/-- Credit sums distribute over ledger append. -/
theorem sumCredits_append (l1 l2 : List LedgerEntry) :
    sumCredits (l1 ++ l2) = sumCredits l1 + sumCredits l2 := by
  simp [sumCredits, List.filter_append]

/-- Per-payment restriction distributes over ledger append. -/
theorem entriesForPayment_append (pid : Nat) (l1 l2 : List LedgerEntry) :
    entriesForPayment pid (l1 ++ l2)
      = entriesForPayment pid l1 ++ entriesForPayment pid l2 := by
  simp [entriesForPayment, List.filter_append]

/-- A balanced batch whose entries all belong to one payment stays balanced
after restriction to any payment: the restriction is the whole batch or
nothing. -/
theorem entriesForPayment_homogeneous_balanced (b : List LedgerEntry)
    (hhom : ∀ e1 ∈ b, ∀ e2 ∈ b, e1.paymentId = e2.paymentId)
    (hbal : sumDebits b = sumCredits b) (pid : Nat) :
    sumDebits (entriesForPayment pid b) = sumCredits (entriesForPayment pid b) := by
  cases b with
  | nil => rfl
  | cons e tail =>
      by_cases hp : e.paymentId = pid
      · have hfull : entriesForPayment pid (e :: tail) = e :: tail := by
          unfold entriesForPayment
          rw [List.filter_eq_self]
          intro a ha
          have h2 : a.paymentId = e.paymentId :=
            hhom a ha e (List.mem_cons_self e tail)
          simp [h2, hp]
        rw [hfull]
        exact hbal
      · have hnone : entriesForPayment pid (e :: tail) = [] := by
          unfold entriesForPayment
          rw [List.filter_eq_nil_iff]
          intro a ha
          have h2 : a.paymentId = e.paymentId :=
            hhom a ha e (List.mem_cons_self e tail)
          simp [h2, hp]
        rw [hnone]
        rfl

/-- Posting a sequence of single-payment batches from a per-payment balanced
ledger keeps every payment's entries balanced. -/
theorem ledger_post_all_balanced (batches : List (List LedgerEntry)) :
    ∀ initial final : List LedgerEntry,
    (∀ p, sumDebits (entriesForPayment p initial)
        = sumCredits (entriesForPayment p initial)) →
    (∀ b ∈ batches, ∀ e1 ∈ b, ∀ e2 ∈ b, e1.paymentId = e2.paymentId) →
    ledger_post_all initial batches = .ok final →
    ∀ pid, sumDebits (entriesForPayment pid final)
        = sumCredits (entriesForPayment pid final) := by
  induction batches with
  | nil =>
      intro initial final hinit _ hok pid
      have hfin : initial = final := by
        injection hok
      rw [← hfin]
      exact hinit pid
  | cons b rest ih =>
      intro initial final hinit hhom hok pid
      unfold ledger_post_all ledger_post at hok
      by_cases hb : (sumDebits b == sumCredits b) = true
      · rw [if_pos hb] at hok
        refine ih (initial ++ b) final ?_ ?_ hok pid
        · intro p
          rw [entriesForPayment_append, sumDebits_append, sumCredits_append,
            hinit p,
            entriesForPayment_homogeneous_balanced b
              (hhom b (List.mem_cons_self b rest)) (eq_of_beq hb) p]
        · intro b' hb'
          exact hhom b' (List.mem_cons_of_mem b hb')
      · rw [if_neg hb] at hok
        exact absurd hok (by simp)

/-- C7: `ledger_post` accepts a batch only when its debit total equals its
credit total, and on success it exactly appends the batch (entries are never
updated or deleted); consequently a ledger built by posting single-payment
batches from a balanced ledger satisfies Σdebit = Σcredit for every
payment. -/
theorem ledger_post_balance_invariant (initial final : List LedgerEntry)
    (batches : List (List LedgerEntry)) (pid : Nat)
    (l es l' : List LedgerEntry) :
    (ledger_post l es = .ok l' →
      sumDebits es = sumCredits es ∧ l' = l ++ es)
    ∧ ((∀ p, sumDebits (entriesForPayment p initial)
          = sumCredits (entriesForPayment p initial)) →
      (∀ b ∈ batches, ∀ e1 ∈ b, ∀ e2 ∈ b, e1.paymentId = e2.paymentId) →
      ledger_post_all initial batches = .ok final →
      sumDebits (entriesForPayment pid final)
        = sumCredits (entriesForPayment pid final)) := by
  constructor
  · intro hok
    unfold ledger_post at hok
    by_cases hb : (sumDebits es == sumCredits es) = true
    · rw [if_pos hb] at hok
      refine ⟨eq_of_beq hb, ?_⟩
      injection hok with h2
      exact h2.symm
    · rw [if_neg hb] at hok
      exact absurd hok (by simp)
  · intro hinit hhom hok
    exact ledger_post_all_balanced batches initial final hinit hhom hok pid

/-- Witness for C7: posting one balanced two-entry batch for payment 1 onto
the empty ledger leaves payment 1 balanced. -/
theorem ledger_post_balance_invariant_witness :
    sumDebits (entriesForPayment 1
      [{ paymentId := 1, entryType := EntryType.debit, accountType := AccountType.asset,
         amount := 500, description := "cash received" },
       { paymentId := 1, entryType := EntryType.credit, accountType := AccountType.revenue,
         amount := 500, description := "subscription revenue" }])
    = sumCredits (entriesForPayment 1
      [{ paymentId := 1, entryType := EntryType.debit, accountType := AccountType.asset,
         amount := 500, description := "cash received" },
       { paymentId := 1, entryType := EntryType.credit, accountType := AccountType.revenue,
         amount := 500, description := "subscription revenue" }]) :=
  (ledger_post_balance_invariant []
      [{ paymentId := 1, entryType := EntryType.debit, accountType := AccountType.asset,
         amount := 500, description := "cash received" },
       { paymentId := 1, entryType := EntryType.credit, accountType := AccountType.revenue,
         amount := 500, description := "subscription revenue" }]
      [[{ paymentId := 1, entryType := EntryType.debit, accountType := AccountType.asset,
          amount := 500, description := "cash received" },
        { paymentId := 1, entryType := EntryType.credit, accountType := AccountType.revenue,
          amount := 500, description := "subscription revenue" }]]
      1 [] [] []).2
    (fun _ => rfl) (by decide) rfl

/-- Decomposition of a successful `Except` bind. -/
theorem exceptBind_eq_ok {ε α β : Type} (x : Except ε α) (f : α → Except ε β)
    (b : β) (h : (x >>= f) = .ok b) : ∃ a, x = .ok a ∧ f a = .ok b := by
  cases x with
  | error e => exact absurd h (by simp [Bind.bind, Except.bind])
  | ok a => exact ⟨a, rfl, by simpa [Bind.bind, Except.bind] using h⟩

/-- Setting one key leaves the lookup of a different key unchanged. -/
theorem dictFind_dictSet_ne (d : List (String × Json)) (k k' : String) (v : Json)
    (h : (k == k') = false) :
    dictFind (dictSet d k v) k' = dictFind d k' := by
  simp [dictFind, dictSet, List.find?, h]

/-- One item-loop step never touches the `success` entry. -/
theorem mpesaItemStep_success (parsed out : List (String × Json)) (item : Json)
    (hok : mpesaItemStep parsed item = .ok out) :
    dictFind out "success" = dictFind parsed "success" := by
  unfold mpesaItemStep at hok
  obtain ⟨name, h1, hok⟩ := exceptBind_eq_ok _ _ _ hok
  obtain ⟨value, h2, hok⟩ := exceptBind_eq_ok _ _ _ hok
  by_cases hA : pyEqStr name "Amount" = true
  · rw [if_pos hA] at hok
    obtain ⟨amount, h3, hok⟩ := exceptBind_eq_ok _ _ _ hok
    have hout : out = dictSet parsed "amount" (.num amount) := by
      simpa [Pure.pure, Except.pure] using hok.symm
    rw [hout, dictFind_dictSet_ne _ _ _ _ (by decide)]
  · rw [if_neg hA] at hok
    by_cases hB : pyEqStr name "MpesaReceiptNumber" = true
    · rw [if_pos hB] at hok
      have hout : out = dictSet parsed "receipt_number" value := by
        simpa [Pure.pure, Except.pure] using hok.symm
      rw [hout, dictFind_dictSet_ne _ _ _ _ (by decide)]
    · rw [if_neg hB] at hok
      by_cases hC : pyEqStr name "TransactionDate" = true
      · rw [if_pos hC] at hok
        have hout : out = dictSet parsed "transaction_date" value := by
          simpa [Pure.pure, Except.pure] using hok.symm
        rw [hout, dictFind_dictSet_ne _ _ _ _ (by decide)]
      · rw [if_neg hC] at hok
        by_cases hD : pyEqStr name "PhoneNumber" = true
        · rw [if_pos hD] at hok
          have hout : out = dictSet parsed "phone_number" value := by
            simpa [Pure.pure, Except.pure] using hok.symm
          rw [hout, dictFind_dictSet_ne _ _ _ _ (by decide)]
        · rw [if_neg hD] at hok
          have hout : out = parsed := by
            simpa [Pure.pure, Except.pure] using hok.symm
          rw [hout]

/-- The whole item loop never touches the `success` entry. -/
theorem mpesa_fold_success (items : List Json) :
    ∀ parsed out, items.foldlM mpesaItemStep parsed = .ok out →
      dictFind out "success" = dictFind parsed "success" := by
  induction items with
  | nil =>
      intro parsed out h
      have hout : out = parsed := by
        simpa [List.foldlM, Pure.pure, Except.pure] using h.symm
      rw [hout]
  | cons item rest ih =>
      intro parsed out h
      rw [List.foldlM_cons] at h
      obtain ⟨p1, h1, h2⟩ := exceptBind_eq_ok _ _ _ h
      rw [ih p1 out h2, mpesaItemStep_success parsed p1 item h1]

/-- A successful run of the M-Pesa `try` body always yields a dict whose
`success` entry is a boolean. -/
theorem mpesa_parse_callback_body_success (j : Json) (out : List (String × Json))
    (hok : mpesa_parse_callback_body j = .ok out) :
    ∃ b, dictFind out "success" = some (.bool b) := by
  unfold mpesa_parse_callback_body at hok
  obtain ⟨body, h1, hok⟩ := exceptBind_eq_ok _ _ _ hok
  obtain ⟨stk, h2, hok⟩ := exceptBind_eq_ok _ _ _ hok
  obtain ⟨rc, h3, hok⟩ := exceptBind_eq_ok _ _ _ hok
  obtain ⟨rd, h4, hok⟩ := exceptBind_eq_ok _ _ _ hok
  obtain ⟨mr, h5, hok⟩ := exceptBind_eq_ok _ _ _ hok
  obtain ⟨cr, h6, hok⟩ := exceptBind_eq_ok _ _ _ hok
  have hfind : dictFind
      [("result_code", rc), ("result_desc", rd), ("merchant_request_id", mr),
       ("checkout_request_id", cr), ("success", Json.bool (pyEqZero rc))] "success"
      = some (.bool (pyEqZero rc)) := by
    simp [dictFind, List.find?]
  refine ⟨pyEqZero rc, ?_⟩
  by_cases hz : pyEqZero rc = true
  · rw [if_pos hz] at hok
    obtain ⟨md, h7, hok⟩ := exceptBind_eq_ok _ _ _ hok
    obtain ⟨itemsJ, h8, hok⟩ := exceptBind_eq_ok _ _ _ hok
    obtain ⟨items, h9, hok⟩ := exceptBind_eq_ok _ _ _ hok
    rw [mpesa_fold_success items _ out hok, hfind]
  · rw [if_neg hz] at hok
    have hout : out
        = [("result_code", rc), ("result_desc", rd), ("merchant_request_id", mr),
           ("checkout_request_id", cr), ("success", Json.bool (pyEqZero rc))] := by
      simpa [Pure.pure, Except.pure] using hok.symm
    rw [hout, hfind]

/-- The amount block never touches the `success` entry. -/
theorem airtelAmountStep_success (tr : Json) (parsed out : List (String × Json))
    (hok : airtelAmountStep tr parsed = .ok out) :
    dictFind out "success" = dictFind parsed "success" := by
  unfold airtelAmountStep at hok
  obtain ⟨hasAmt, h1, hok⟩ := exceptBind_eq_ok _ _ _ hok
  by_cases ha : hasAmt = true
  · rw [if_pos ha] at hok
    obtain ⟨aj, h2, hok⟩ := exceptBind_eq_ok _ _ _ hok
    obtain ⟨amt, h3, hok⟩ := exceptBind_eq_ok _ _ _ hok
    have hout : out = dictSet parsed "amount" (.num amt) := by
      simpa [Pure.pure, Except.pure] using hok.symm
    rw [hout, dictFind_dictSet_ne _ _ _ _ (by decide)]
  · rw [if_neg ha] at hok
    have hout : out = parsed := by
      simpa [Pure.pure, Except.pure] using hok.symm
    rw [hout]

/-- The currency block never touches the `success` entry. -/
theorem airtelCurrencyStep_success (tr : Json) (parsed out : List (String × Json))
    (hok : airtelCurrencyStep tr parsed = .ok out) :
    dictFind out "success" = dictFind parsed "success" := by
  unfold airtelCurrencyStep at hok
  obtain ⟨hasCur, h1, hok⟩ := exceptBind_eq_ok _ _ _ hok
  by_cases hc : hasCur = true
  · rw [if_pos hc] at hok
    obtain ⟨cj, h2, hok⟩ := exceptBind_eq_ok _ _ _ hok
    have hout : out = dictSet parsed "currency" cj := by
      simpa [Pure.pure, Except.pure] using hok.symm
    rw [hout, dictFind_dictSet_ne _ _ _ _ (by decide)]
  · rw [if_neg hc] at hok
    have hout : out = parsed := by
      simpa [Pure.pure, Except.pure] using hok.symm
    rw [hout]

/-- The subscriber block never touches the `success` entry. -/
theorem airtelSubscriberStep_success (sber : Json) (parsed out : List (String × Json))
    (hok : airtelSubscriberStep sber parsed = .ok out) :
    dictFind out "success" = dictFind parsed "success" := by
  unfold airtelSubscriberStep at hok
  by_cases ht : pyTruthy sber = true
  · rw [if_pos ht] at hok
    obtain ⟨ph, h1, hok⟩ := exceptBind_eq_ok _ _ _ hok
    obtain ⟨co, h2, hok⟩ := exceptBind_eq_ok _ _ _ hok
    have hout : out = dictSet (dictSet parsed "phone_number" ph) "country" co := by
      simpa [Pure.pure, Except.pure] using hok.symm
    rw [hout, dictFind_dictSet_ne _ _ _ _ (by decide),
      dictFind_dictSet_ne _ _ _ _ (by decide)]
  · rw [if_neg ht] at hok
    have hout : out = parsed := by
      simpa [Pure.pure, Except.pure] using hok.symm
    rw [hout]

/-- A successful run of the Airtel `try` body always yields a dict whose
`success` entry is a boolean. -/
theorem airtel_parse_callback_body_success (j : Json) (out : List (String × Json))
    (hok : airtel_parse_callback_body j = .ok out) :
    ∃ b, dictFind out "success" = some (.bool b) := by
  unfold airtel_parse_callback_body at hok
  obtain ⟨tr, h1, hok⟩ := exceptBind_eq_ok _ _ _ hok
  obtain ⟨st, h2, hok⟩ := exceptBind_eq_ok _ _ _ hok
  obtain ⟨tid, h3, hok⟩ := exceptBind_eq_ok _ _ _ hok
  obtain ⟨aid, h4, hok⟩ := exceptBind_eq_ok _ _ _ hok
  obtain ⟨p1, h5, hok⟩ := exceptBind_eq_ok _ _ _ hok
  obtain ⟨p2, h6, hok⟩ := exceptBind_eq_ok _ _ _ hok
  obtain ⟨sber, h7, hok⟩ := exceptBind_eq_ok _ _ _ hok
  refine ⟨pyEqStr st "TS" || pyEqStr st "SUCCESS", ?_⟩
  rw [airtelSubscriberStep_success sber p2 out hok,
    airtelCurrencyStep_success tr p1 p2 h6,
    airtelAmountStep_success tr _ p1 h5]
  simp [dictFind, List.find?]

/-- C10: for every payload — dict-shaped or not — both `parse_callback`
implementations return a dict holding a boolean `success` key (the embedded
bodies are total: every Python operation that can raise is caught by the
enclosing handler), and whenever the `try` body fails the result is
`success = False` together with an `error` message. -/
theorem parse_callback_always_bool_success (j : Json) (e : PyError) :
    (∃ b, dictFind (mpesa_parse_callback j) "success" = some (.bool b))
    ∧ (∃ b, dictFind (airtel_parse_callback j) "success" = some (.bool b))
    ∧ (mpesa_parse_callback_body j = .error e →
      dictFind (mpesa_parse_callback j) "success" = some (.bool false)
      ∧ dictFind (mpesa_parse_callback j) "error" = some (.str (pyErrMsg e)))
    ∧ (airtel_parse_callback_body j = .error e →
      dictFind (airtel_parse_callback j) "success" = some (.bool false)
      ∧ dictFind (airtel_parse_callback j) "error" = some (.str (pyErrMsg e))) := by
  refine ⟨?_, ?_, ?_, ?_⟩
  · unfold mpesa_parse_callback
    cases hbody : mpesa_parse_callback_body j with
    | ok parsed => exact mpesa_parse_callback_body_success j parsed hbody
    | error e2 => exact ⟨false, by simp [dictFind, List.find?]⟩
  · unfold airtel_parse_callback
    cases hbody : airtel_parse_callback_body j with
    | ok parsed => exact airtel_parse_callback_body_success j parsed hbody
    | error e2 => exact ⟨false, by simp [dictFind, List.find?]⟩
  · intro herr
    unfold mpesa_parse_callback
    rw [herr]
    exact ⟨by simp [dictFind, List.find?], by simp [dictFind, List.find?]⟩
  · intro herr
    unfold airtel_parse_callback
    rw [herr]
    exact ⟨by simp [dictFind, List.find?], by simp [dictFind, List.find?]⟩

/-- Witness for C10: the non-dict payload `None` makes both bodies fail with
`AttributeError`, and both public parsers still report `success = False`. -/
theorem parse_callback_always_bool_success_witness :
    dictFind (mpesa_parse_callback Json.null) "success" = some (.bool false)
    ∧ dictFind (airtel_parse_callback Json.null) "success" = some (.bool false) :=
  ⟨((parse_callback_always_bool_success Json.null PyError.attributeError).2.2.1 rfl).1,
   ((parse_callback_always_bool_success Json.null PyError.attributeError).2.2.2 rfl).1⟩

end OnlineCyberServices
